import Mathlib

/-!
Verification of the Express product API (server.js, products.js,
products/product.routes.js, products/product.service.js, and the product
controller module) as a shallow embedding.  HTTP handlers become pure
functions from a Store state and request data to a Response and a new
Store state; the Express routing table becomes a first-match-wins
dispatch over an ordered list of routes.
-/

/-- A JavaScript value as it occurs in a parsed JSON request body
(restricted to the shapes this API can observe: destructuring a missing
field yields undefined, and the bodies carry strings, integers,
booleans or null). -/
inductive JSValue where
  | undefined
  | nullv
  | bool (b : Bool)
  | num (n : Int)
  | str (s : String)
  deriving DecidableEq, Repr

/-- A request body: the JSON object, as an association list of fields
in textual order. -/
abbrev ReqBody := List (String × JSValue)

/-- Reading a field of the body, as JS destructuring does: the first
binding when present, undefined otherwise. -/
def getField (body : ReqBody) (k : String) : JSValue :=
  match body.find? (fun kv => decide (kv.1 = k)) with
  | some kv => kv.2
  | none => .undefined

/-- JS string interpolation of a value, as a template literal performs it. -/
def jsToString : JSValue → String
  | .undefined => "undefined"
  | .nullv => "null"
  | .bool true => "true"
  | .bool false => "false"
  | .num n => toString n
  | .str s => s

/-- The result of JS Number(string): NaN, an integer, or a genuine
number that is no integer (a finite non-integral value or an infinity).
The ids of this API are integers, so only the integer case can match a
record; a notInt value is still a number — not NaN — but equals no
integer id. -/
inductive JSNum where
  | nan
  | int (i : Int)
  | notInt
  deriving DecidableEq, Repr

/-- Negation of a parsed number, for a leading minus sign. -/
def JSNum.neg : JSNum → JSNum
  | .nan => .nan
  | .int i => .int (-i)
  | .notInt => .notInt

/-- Whether a character is whitespace for JS string-to-number trimming:
the WhiteSpace and LineTerminator code points of the JS specification
(TAB, LF, VT, FF, CR, SP, NBSP, the Zs category, LS, PS, ZWNBSP). -/
def isJsSpace (c : Char) : Bool :=
  decide (c.toNat ∈ [9, 10, 11, 12, 13, 32, 0xa0, 0x1680,
    0x2000, 0x2001, 0x2002, 0x2003, 0x2004, 0x2005, 0x2006, 0x2007,
    0x2008, 0x2009, 0x200a, 0x2028, 0x2029, 0x202f, 0x205f, 0x3000, 0xfeff])

/-- The numeric value of a decimal digit list (callers pass all-digit
lists; the empty list counts 0). -/
def decDigitsValue (l : List Char) : Nat :=
  l.foldl (fun a c => a * 10 + (c.toNat - 48)) 0

/-- The value of a digit of a radix-prefixed literal (0-9, a-f, A-F),
and 16 for every other character, so that validity is value < radix. -/
def hexDigitValue (c : Char) : Nat :=
  if '0' ≤ c ∧ c ≤ '9' then c.toNat - 48
  else if 'a' ≤ c ∧ c ≤ 'f' then c.toNat - 87
  else if 'A' ≤ c ∧ c ≤ 'F' then c.toNat - 55
  else 16

/-- The value of the digit part of a radix-prefixed integer literal
(after 0x, 0o or 0b): NaN unless the digits are nonempty and all valid
for the radix. -/
def radixValue (radix : Nat) (l : List Char) : JSNum :=
  if !l.isEmpty && l.all (fun c => hexDigitValue c < radix) then
    .int ((l.foldl (fun a c => a * radix + hexDigitValue c) 0 : Nat) : Int)
  else .nan

/-- A fully consumed signed exponent digit string, none when malformed. -/
def expSigned (l : List Char) : Option Int :=
  match l with
  | '+' :: d =>
    if !d.isEmpty && d.all Char.isDigit then some (decDigitsValue d) else none
  | '-' :: d =>
    if !d.isEmpty && d.all Char.isDigit then some (-(decDigitsValue d : Int))
    else none
  | d =>
    if !d.isEmpty && d.all Char.isDigit then some (decDigitsValue d) else none

/-- The optional exponent part of a decimal literal: 0 when absent, its
signed value after e or E, none when the remainder is not a wellformed,
fully consumed exponent. -/
def expValue : List Char → Option Int
  | [] => some 0
  | 'e' :: r => expSigned r
  | 'E' :: r => expSigned r
  | _ => none

/-- The number mantissa times 10 to the power (exp - scale): an integer
when the value is integral, notInt otherwise. -/
def pow10Value (mantissa : Nat) (scale : Nat) (exp : Int) : JSNum :=
  if (scale : Int) ≤ exp then
    .int ((mantissa * 10 ^ (exp - scale).toNat : Nat) : Int)
  else
    let d := 10 ^ ((scale : Int) - exp).toNat
    if mantissa % d = 0 then .int ((mantissa / d : Nat) : Int) else .notInt

/-- A JS decimal literal: integer digits, an optional fraction part, an
optional exponent part, nothing else; its exact value classified as
integer or notInt, NaN when malformed. -/
def decLiteral (l : List Char) : JSNum :=
  let (ip, r1) := l.span Char.isDigit
  match r1 with
  | '.' :: r2 =>
    let (fp, r3) := r2.span Char.isDigit
    if ip.isEmpty && fp.isEmpty then .nan
    else
      match expValue r3 with
      | some e =>
        pow10Value (decDigitsValue ip * 10 ^ fp.length + decDigitsValue fp)
          fp.length e
      | none => .nan
  | rest =>
    if ip.isEmpty then .nan
    else
      match expValue rest with
      | some e => pow10Value (decDigitsValue ip) 0 e
      | none => .nan

/-- An unsigned decimal numeric string: the Infinity literal (a number,
not an integer) or a decimal literal. -/
def decUnsigned (l : List Char) : JSNum :=
  if l = "Infinity".data then .notInt else decLiteral l

/-- JS Number(string): whitespace is trimmed, the empty string is 0, an
optionally signed decimal literal (with optional fraction and exponent,
or Infinity) is its value, unsigned hex, octal and binary literals are
theirs, and every other string (in particular "special") is NaN.  The
arithmetic is exact rational arithmetic rather than binary doubles, so
rounding above 2 to the 53rd and overflow to infinity near 1e309 are not
modelled — unobservable against this API's id column, a 32-bit integer. -/
def jsNumber (s : String) : JSNum :=
  match ((s.data.dropWhile isJsSpace).reverse.dropWhile isJsSpace).reverse with
  | [] => .int 0
  | '+' :: rest => decUnsigned rest
  | '-' :: rest => (decUnsigned rest).neg
  | '0' :: 'x' :: rest => radixValue 16 rest
  | '0' :: 'X' :: rest => radixValue 16 rest
  | '0' :: 'o' :: rest => radixValue 8 rest
  | '0' :: 'O' :: rest => radixValue 8 rest
  | '0' :: 'b' :: rest => radixValue 2 rest
  | '0' :: 'B' :: rest => radixValue 2 rest
  | l => decUnsigned l

/-- Whether a parsed id equals an integer record id: NaN compares false
against every number, and so does a number that is no integer. -/
def JSNum.eqInt : JSNum → Int → Bool
  | .nan, _ => false
  | .int i, j => decide (i = j)
  | .notInt, _ => false

/-- A Product record as stored by the persistent backend: integer id,
text name, integer price, creation timestamp. -/
structure Product where
  id : Int
  name : String
  price : Int
  createdAt : Int
  deriving DecidableEq, Repr

/-- Modelled from the spec: the Product Store (src/db/prisma is not
included under src/; spec section 4.1 gives the Store contract).  The
state is the record set in insertion order, the next auto-increment
identifier, the creation timestamp the backend would assign now, and
whether the persistent backend is failing (StoreError on every access). -/
structure Store where
  records : List Product
  nextId : Int
  now : Int
  failing : Bool
  deriving DecidableEq, Repr

/-- Modelled from the spec: Store list operation (prisma.product.findMany) —
returns all known products, or fails with a StoreError when the backend
is failing. -/
def Store.findMany (s : Store) : Except Unit (List Product) :=
  if s.failing then .error () else .ok s.records

/-- Modelled from the spec: Store get-by-id (prisma.product.findUnique
where id) — absent (not an error) when no record matches; a NaN id
matches no integer id; fails with a StoreError when the backend is
failing. -/
def Store.findUnique (s : Store) (id : JSNum) : Except Unit (Option Product) :=
  if s.failing then .error ()
  else .ok (s.records.find? (fun p => id.eqInt p.id))

/-- Modelled from the spec: Store insert (prisma.product.create) —
assigns a new identifier and the creation timestamp and returns the
stored record; fails with a StoreError on connectivity (failing backend)
or constraint violation (non-string name or non-integer price). -/
def Store.create (s : Store) (name price : JSValue) :
    Except Unit (Product × Store) :=
  if s.failing then .error ()
  else
    match name, price with
    | .str n, .num p =>
      let stored : Product := ⟨s.nextId, n, p, s.now⟩
      .ok (stored,
        { s with records := s.records ++ [stored], nextId := s.nextId + 1 })
    | _, _ => .error ()

/-- No record of the store carries the identifier the store would assign
next (auto-increment freshness, spec: id unique, assigned by the Store). -/
def Store.Fresh (s : Store) : Prop :=
  ∀ p ∈ s.records, p.id ≠ s.nextId

instance (s : Store) : Decidable s.Fresh := by
  unfold Store.Fresh; infer_instance

/-- A response body among those this application can produce. -/
inductive Body where
  | jsonList (ps : List Product)
  | jsonProduct (p : Product)
  | jsonError (msg : String)
  | jsonMessage (msg : String)
  | jsonReply (success : Bool) (reply : String)
  | text (s : String)
  deriving DecidableEq, Repr

/-- An HTTP response: status code and body. -/
structure Response where
  status : Nat
  body : Body
  deriving DecidableEq, Repr

/-- HTTP methods used by this application. -/
inductive Method where
  | GET
  | POST
  deriving DecidableEq, Repr

/-- An Express route pattern among those registered here: the router
root "/", a literal single segment, or a single-parameter segment ":id". -/
inductive Pattern where
  | root
  | lit (s : String)
  | param
  deriving DecidableEq, Repr

/-- Whether a pattern matches a path (given as its segment list). -/
def Pattern.matches : Pattern → List String → Bool
  | .root, [] => true
  | .lit s, [seg] => decide (seg = s)
  | .param, [_] => true
  | _, _ => false

/-- The captured parameter value of a match (req.params.id). -/
def Pattern.paramOf : Pattern → List String → Option String
  | .param, [seg] => some seg
  | _, _ => none

/-- A registered route: method, pattern, a tag naming the bound handler,
and the handler itself acting on the store, the captured parameter and
the request body. -/
structure Route where
  method : Method
  pattern : Pattern
  tag : String
  handle : Store → Option String → ReqBody → Response × Store

/-- First-match-wins route lookup, as Express performs it over the
registration order. -/
def findRoute (routes : List Route) (m : Method) (path : List String) :
    Option Route :=
  routes.find? (fun r => decide (r.method = m) && r.pattern.matches path)

/-- The tag of the route the dispatcher selects, if any. -/
def selectedRoute (routes : List Route) (m : Method) (path : List String) :
    Option String :=
  (findRoute routes m path).map Route.tag

/-- Dispatching a request through an ordered route list: the first
matching route's handler runs; none when no route matches. -/
def dispatch (routes : List Route) (m : Method) (path : List String)
    (s : Store) (body : ReqBody) : Option (Response × Store) :=
  (findRoute routes m path).map
    (fun r => r.handle s (r.pattern.paramOf path) body)

/-! ## The directly-mounted router (src/products.js) -/

namespace DirectRouter

/-- Handler of GET "/" in src/products.js: findMany, 200 with the array,
500 with the fetch-products error on Store failure. -/
def getAll (s : Store) : Response :=
  match s.findMany with
  | .ok ps => ⟨200, .jsonList ps⟩
  | .error _ => ⟨500, .jsonError "Failed to fetch products"⟩

/-- Handler of GET "/special" in src/products.js: a static message,
no Store access. -/
def getSpecial : Response :=
  ⟨200, .jsonMessage "Special products"⟩

/-- Handler of GET "/:id" in src/products.js: Number(req.params.id),
findUnique on that id, 404 when absent, 200 with the product, 500 with
the fetch-product error on Store failure. -/
def getById (s : Store) (idStr : String) : Response :=
  match s.findUnique (jsNumber idStr) with
  | .ok none => ⟨404, .jsonError "Product not found"⟩
  | .ok (some p) => ⟨200, .jsonProduct p⟩
  | .error _ => ⟨500, .jsonError "Failed to fetch product"⟩

/-- Handler of POST "/" in src/products.js: destructure name and price
from the body, create, 201 with the created record, 500 with the
create-product error on Store failure. -/
def create (s : Store) (body : ReqBody) : Response × Store :=
  match s.create (getField body "name") (getField body "price") with
  | .ok (p, s1) => (⟨201, .jsonProduct p⟩, s1)
  | .error _ => (⟨500, .jsonError "Failed to create product"⟩, s)

end DirectRouter

/-- The router of src/products.js, in registration order:
GET "/", GET "/special", GET "/:id", POST "/". -/
def productsRouter : List Route :=
  [ ⟨.GET, .root, "getAll", fun s _ _ => (DirectRouter.getAll s, s)⟩,
    ⟨.GET, .lit "special", "getSpecial", fun s _ _ => (DirectRouter.getSpecial, s)⟩,
    ⟨.GET, .param, "getById", fun s param _ => (DirectRouter.getById s (param.getD ""), s)⟩,
    ⟨.POST, .root, "create", fun s _ body => DirectRouter.create s body⟩ ]

/-! ## The layered chain: service, controller, routes
(src/products/product.service.js, the controller module,
src/products/product.routes.js) -/

namespace ProductService

/-- getAllProducts of product.service.js: delegates to findMany. -/
def getAllProducts (s : Store) : Except Unit (List Product) :=
  s.findMany

/-- getProductById of product.service.js: delegates to findUnique. -/
def getProductById (s : Store) (id : JSNum) : Except Unit (Option Product) :=
  s.findUnique id

/-- createProduct of product.service.js: delegates the data object
(its name and price fields) to create. -/
def createProduct (s : Store) (data : JSValue × JSValue) :
    Except Unit (Product × Store) :=
  s.create data.1 data.2

end ProductService

namespace ProductController

/-- getAll of the controller: Service.getAllProducts, 200 with the
array, 500 with the fetch-products error on failure. -/
def getAll (s : Store) : Response :=
  match ProductService.getAllProducts s with
  | .ok ps => ⟨200, .jsonList ps⟩
  | .error _ => ⟨500, .jsonError "Failed to fetch products"⟩

/-- getSpecial of the controller: the static message. -/
def getSpecial : Response :=
  ⟨200, .jsonMessage "Special products"⟩

/-- getById of the controller: Number(req.params.id),
Service.getProductById, 404 when absent, 200 with the product, 500 with
the fetch-product error on failure. -/
def getById (s : Store) (idStr : String) : Response :=
  match ProductService.getProductById s (jsNumber idStr) with
  | .ok none => ⟨404, .jsonError "Product not found"⟩
  | .ok (some p) => ⟨200, .jsonProduct p⟩
  | .error _ => ⟨500, .jsonError "Failed to fetch product"⟩

/-- create of the controller: destructure name and price from the body,
Service.createProduct with that data, 201 with the created record, 500
with the create-product error on failure. -/
def create (s : Store) (body : ReqBody) : Response × Store :=
  match ProductService.createProduct s
      (getField body "name", getField body "price") with
  | .ok (p, s1) => (⟨201, .jsonProduct p⟩, s1)
  | .error _ => (⟨500, .jsonError "Failed to create product"⟩, s)

end ProductController

/-- The router of src/products/product.routes.js, in registration order:
GET "/", GET "/special", GET "/:id", POST "/", each bound to the
controller. -/
def productRoutes : List Route :=
  [ ⟨.GET, .root, "ctrlGetAll", fun s _ _ => (ProductController.getAll s, s)⟩,
    ⟨.GET, .lit "special", "ctrlGetSpecial", fun s _ _ => (ProductController.getSpecial, s)⟩,
    ⟨.GET, .param, "ctrlGetById", fun s param _ => (ProductController.getById s (param.getD ""), s)⟩,
    ⟨.POST, .root, "ctrlCreate", fun s _ body => ProductController.create s body⟩ ]

/-! ## The application (src/server.js) -/

/-- Handler of POST "/message" in src/server.js: destructure name and
message from the body, reply with success and the interpolated thanks
template. -/
def postMessage (body : ReqBody) : Response :=
  ⟨200, .jsonReply true
    ("Thanks " ++ jsToString (getField body "name") ++ ", we received your message!")⟩

/-- The inline routes of src/server.js, in registration order:
GET "/", GET "/about", GET "/message", POST "/message". -/
def appRoutes : List Route :=
  [ ⟨.GET, .root, "home", fun s _ _ => ((⟨200, .text "Hey there!!"⟩ : Response), s)⟩,
    ⟨.GET, .lit "about", "about", fun s _ _ => ((⟨200, .text "This is the about page"⟩ : Response), s)⟩,
    ⟨.GET, .lit "message", "getMessage", fun s _ _ => ((⟨200, .jsonMessage "Hello from express backend"⟩ : Response), s)⟩,
    ⟨.POST, .lit "message", "postMessage", fun s _ body => (postMessage body, s)⟩ ]

/-- The application of src/server.js: the products router is mounted
under the path prefix "/products" before the inline routes are
registered, so a request whose first segment is "products" is handled by
the router on the remaining path; every other request is handled by the
inline routes.  (When the mounted router matches nothing Express falls
through to the inline routes, but none of their patterns can match a
path whose first segment is "products", so the fall-through is
observationally the unmatched response in both cases.) -/
def appHandle (m : Method) (path : List String) (s : Store) (body : ReqBody) :
    Option (Response × Store) :=
  match path with
  | seg :: rest =>
    if seg = "products" then dispatch productsRouter m rest s body
    else dispatch appRoutes m path s body
  | [] => dispatch appRoutes m path s body

/-! ## Sample data for concrete evaluations -/

/-- A healthy store holding one product. -/
def sampleStore : Store := ⟨[⟨1, "laptop", 999, 5⟩], 2, 6, false⟩

/-- The same store with the persistent backend failing. -/
def downStore : Store := ⟨[⟨1, "laptop", 999, 5⟩], 2, 6, true⟩

/-- A healthy empty store about to assign id 1. -/
def emptyStore : Store := ⟨[], 1, 100, false⟩

/-- The request body of the example create scenario. -/
def laptopBody : ReqBody := [("name", .str "laptop"), ("price", .num 999)]

/-- The record the empty store creates from the laptop body. -/
def laptopRecord : Product := ⟨1, "laptop", 999, 100⟩

/-- The empty store after that create. -/
def oneLaptopStore : Store := ⟨[laptopRecord], 2, 100, false⟩

/-! ## Routing lemmas shared by the claim proofs -/

/-- A successful dispatch comes from a registered route whose method and
pattern match the request, and the result is that route's handler output. -/
theorem dispatch_spec {routes : List Route} {m : Method} {p : List String}
    {s : Store} {b : ReqBody} {res : Response × Store}
    (h : dispatch routes m p s b = some res) :
    ∃ r, r ∈ routes ∧ r.method = m ∧ r.pattern.matches p = true ∧
      res = r.handle s (r.pattern.paramOf p) b := by
  unfold dispatch findRoute at h
  cases hf : List.find? (fun r => decide (r.method = m) && r.pattern.matches p)
      routes with
  | none => rw [hf] at h; simp at h
  | some r =>
    rw [hf] at h
    simp at h
    have hpred := List.find?_some hf
    simp at hpred
    exact ⟨r, List.mem_of_find?_eq_some hf, hpred.1, hpred.2, h.symm⟩

/-- Every inline route of server.js leaves the store untouched. -/
theorem appRoutes_preserve {m : Method} {p : List String} {s : Store}
    {b : ReqBody} {res : Response × Store}
    (h : dispatch appRoutes m p s b = some res) : res.2 = s := by
  obtain ⟨r, hmem, _, _, hres⟩ := dispatch_spec h
  simp [appRoutes] at hmem
  rcases hmem with h1 | h1 | h1 | h1 <;> subst h1 <;> simp [hres]

/-- The create handler either leaves the store unchanged (failure) or
appends exactly one record. -/
theorem create_state (s : Store) (b : ReqBody) :
    (DirectRouter.create s b).2 = s ∨
      ∃ q, (DirectRouter.create s b).2.records = s.records ++ [q] := by
  unfold DirectRouter.create Store.create
  by_cases hf : s.failing <;> simp [hf]
  cases hn : getField b "name" <;> cases hp : getField b "price" <;> simp

/-- A dispatch through the products router either leaves the store
unchanged, or is the POST "/" create request and appends one record. -/
theorem products_state {m : Method} {rest : List String} {s : Store}
    {b : ReqBody} {res : Response × Store}
    (h : dispatch productsRouter m rest s b = some res) :
    res.2 = s ∨ (m = .POST ∧ rest = [] ∧
      ∃ q, res.2.records = s.records ++ [q]) := by
  obtain ⟨r, hmem, hmeth, hmatch, hres⟩ := dispatch_spec h
  simp [productsRouter] at hmem
  rcases hmem with h1 | h1 | h1 | h1 <;> subst h1
  · exact Or.inl (by simp [hres])
  · exact Or.inl (by simp [hres])
  · exact Or.inl (by simp [hres])
  · have hrest : rest = [] := by
      cases rest with
      | nil => rfl
      | cons x xs => simp [Pattern.matches] at hmatch
    subst hrest
    rcases create_state s b with hc | ⟨q, hq⟩
    · exact Or.inl (by rw [hres]; exact hc)
    · exact Or.inr ⟨hmeth.symm, rfl, q, by rw [hres]; exact hq⟩

/-- Any request the application handles either leaves the store
unchanged, or is POST /products and appends exactly one record. -/
theorem appHandle_state {m : Method} {path : List String} {s : Store}
    {b : ReqBody} {resp : Response} {s' : Store}
    (h : appHandle m path s b = some (resp, s')) :
    s' = s ∨ (m = .POST ∧ path = ["products"] ∧
      ∃ q, s'.records = s.records ++ [q]) := by
  rcases path with _ | ⟨seg, rest⟩
  · exact Or.inl (appRoutes_preserve h)
  · simp only [appHandle] at h
    by_cases hseg : seg = "products"
    · rw [if_pos hseg] at h
      rcases products_state h with h1 | ⟨hm, hr, q, hq⟩
      · exact Or.inl h1
      · exact Or.inr ⟨hm, by rw [hseg, hr], q, hq⟩
    · rw [if_neg hseg] at h
      exact Or.inl (appRoutes_preserve h)

/-! ## The claims -/

/-- Claim C1: for a GET /products/:id request on a healthy store, a path
segment that Number() parses to NaN finds no matching record and the
response is a 404 with the product-not-found error, not a 500; a numeric
id matching no record also yields that 404; and on Store failure the
response is a 500. -/
theorem c1_getById_behavior :
    (∀ (s : Store) (idStr : String), s.failing = false →
      jsNumber idStr = .nan →
      DirectRouter.getById s idStr = ⟨404, .jsonError "Product not found"⟩) ∧
    (∀ (s : Store) (idStr : String) (i : Int), s.failing = false →
      jsNumber idStr = .int i → (∀ p ∈ s.records, p.id ≠ i) →
      DirectRouter.getById s idStr = ⟨404, .jsonError "Product not found"⟩) ∧
    (∀ (s : Store) (idStr : String), s.failing = true →
      DirectRouter.getById s idStr =
        ⟨500, .jsonError "Failed to fetch product"⟩) := by
  refine ⟨?_, ?_, ?_⟩
  · intro s idStr hf hn
    have h1 : s.records.find? (fun p => (jsNumber idStr).eqInt p.id) = none := by
      simp [hn, JSNum.eqInt, List.find?_eq_none]
    simp [DirectRouter.getById, Store.findUnique, hf, h1]
  · intro s idStr i hf hn habs
    have h1 : s.records.find? (fun p => (jsNumber idStr).eqInt p.id) = none := by
      simp [hn, JSNum.eqInt, List.find?_eq_none]
      exact fun p hp h => habs p hp h.symm
    simp [DirectRouter.getById, Store.findUnique, hf, h1]
  · intro s idStr hf
    simp [DirectRouter.getById, Store.findUnique, hf]

/-- Witness for C1: the non-numeric segment "special" and the absent id
99 give the 404, and the failing store gives the 500, on concrete
stores. -/
theorem c1_getById_behavior_witness :
    DirectRouter.getById sampleStore "special" =
      ⟨404, .jsonError "Product not found"⟩ ∧
    DirectRouter.getById sampleStore "99" =
      ⟨404, .jsonError "Product not found"⟩ ∧
    DirectRouter.getById downStore "1" =
      ⟨500, .jsonError "Failed to fetch product"⟩ :=
  ⟨c1_getById_behavior.1 sampleStore "special" (by decide) (by decide),
   c1_getById_behavior.2.1 sampleStore "99" 99 (by decide) (by decide)
     (by decide),
   c1_getById_behavior.2.2 downStore "1" (by decide)⟩

/-- Claim C2: in the mounted router the literal GET /special route is
selected for the path segment "special" — never the parametric get-by-id
route — and the dispatched response is the static special message for
every store and body. -/
theorem c2_special_precedes_param :
    selectedRoute productsRouter .GET ["special"] = some "getSpecial" ∧
    selectedRoute productsRouter .GET ["special"] ≠ some "getById" ∧
    ∀ (s : Store) (b : ReqBody),
      dispatch productsRouter .GET ["special"] s b =
        some (⟨200, .jsonMessage "Special products"⟩, s) := by
  refine ⟨by decide, by decide, ?_⟩
  intro s b
  simp [dispatch, findRoute, productsRouter, Pattern.matches, Pattern.paramOf,
    DirectRouter.getSpecial]

/-- Claim C5: GET /products/special returns 200 with the special message
on every store state, failing stores included, and the response is
identical across any two store states. -/
theorem c5_special_static :
    (∀ (s : Store) (b : ReqBody),
      appHandle .GET ["products", "special"] s b =
        some (⟨200, .jsonMessage "Special products"⟩, s)) ∧
    ∀ (s1 s2 : Store) (b1 b2 : ReqBody),
      (appHandle .GET ["products", "special"] s1 b1).map Prod.fst =
        (appHandle .GET ["products", "special"] s2 b2).map Prod.fst := by
  have h : ∀ (s : Store) (b : ReqBody),
      appHandle .GET ["products", "special"] s b =
        some (⟨200, .jsonMessage "Special products"⟩, s) := by
    intro s b
    simp [appHandle, dispatch, findRoute, productsRouter, Pattern.matches,
      Pattern.paramOf, DirectRouter.getSpecial]
  exact ⟨h, fun s1 s2 b1 b2 => by rw [h, h]; rfl⟩

/-- Claim C9: when the Store fails, GET /products/:id (any segment other
than the literal "special") responds 500 with the singular
fetch-product error body, and the store state is unchanged. -/
theorem c9_getById_failure_body :
    ∀ (s : Store) (idStr : String) (b : ReqBody), s.failing = true →
      idStr ≠ "special" →
      appHandle .GET ["products", idStr] s b =
        some (⟨500, .jsonError "Failed to fetch product"⟩, s) := by
  intro s idStr b hf hsp
  simp [appHandle, dispatch, findRoute, productsRouter, Pattern.matches,
    Pattern.paramOf, hsp, DirectRouter.getById, Store.findUnique, hf]

/-- Witness for C9: the failing store answers the get-by-id request for
id 1 with the 500 fetch-product error and is left unchanged. -/
theorem c9_getById_failure_body_witness :
    appHandle .GET ["products", "1"] downStore [] =
      some (⟨500, .jsonError "Failed to fetch product"⟩, downStore) :=
  c9_getById_failure_body downStore "1" [] (by decide) (by decide)

/-- Claim C4: the Service is pure delegation — each service function
returns exactly the Store's result, failures included — and the layered
routes-controller-service chain dispatches every request to the same
response and store as the directly-mounted router. -/
theorem c4_service_delegation_refinement :
    (∀ s : Store, ProductService.getAllProducts s = s.findMany) ∧
    (∀ (s : Store) (id : JSNum),
      ProductService.getProductById s id = s.findUnique id) ∧
    (∀ (s : Store) (d : JSValue × JSValue),
      ProductService.createProduct s d = s.create d.1 d.2) ∧
    ∀ (m : Method) (p : List String) (s : Store) (b : ReqBody),
      dispatch productRoutes m p s b = dispatch productsRouter m p s b := by
  refine ⟨fun s => rfl, fun s id => rfl, fun s d => rfl, ?_⟩
  intro m p s b
  rcases p with _ | ⟨a, _ | ⟨c, t⟩⟩
  · cases m <;>
      simp [dispatch, findRoute, productRoutes, productsRouter, Pattern.matches,
        Pattern.paramOf, ProductController.getAll, DirectRouter.getAll,
        ProductController.create, DirectRouter.create,
        ProductService.getAllProducts, ProductService.createProduct]
  · by_cases h : a = "special" <;> cases m <;>
      simp [dispatch, findRoute, productRoutes, productsRouter, Pattern.matches,
        Pattern.paramOf, h, ProductController.getById, DirectRouter.getById,
        ProductController.getSpecial, DirectRouter.getSpecial,
        ProductService.getProductById]
  · cases m <;>
      simp [dispatch, findRoute, productRoutes, productsRouter, Pattern.matches]

/-- Claim C6: POST /products reads exactly the name and price body
fields, calls the Store on them unconditionally (no validation), and
responds 201 with the record the Store returns on success and 500 with
the create-product error on Store failure. -/
theorem c6_create_no_validation :
    ∀ (s : Store) (body : ReqBody),
      appHandle .POST ["products"] s body =
        some (match s.create (getField body "name") (getField body "price") with
          | .ok (p, s1) => (⟨201, .jsonProduct p⟩, s1)
          | .error _ => (⟨500, .jsonError "Failed to create product"⟩, s)) := by
  intro s body
  simp [appHandle, dispatch, findRoute, productsRouter, Pattern.matches,
    Pattern.paramOf, DirectRouter.create]

/-- Claim C10: two create request bodies that agree on the name and
price fields produce the same data for the Store and hence the same
response and resulting store — extra fields such as a client-supplied id
or createdAt have no influence. -/
theorem c10_create_noninterference :
    ∀ (s : Store) (b1 b2 : ReqBody),
      getField b1 "name" = getField b2 "name" →
      getField b1 "price" = getField b2 "price" →
      appHandle .POST ["products"] s b1 = appHandle .POST ["products"] s b2 := by
  intro s b1 b2 hn hp
  have h0 : ∀ b : ReqBody, appHandle .POST ["products"] s b =
      some (DirectRouter.create s b) := by
    intro b
    simp [appHandle, dispatch, findRoute, productsRouter, Pattern.matches,
      Pattern.paramOf]
  rw [h0, h0]
  unfold DirectRouter.create
  rw [hn, hp]

/-- Witness for C10: a body with extra id and createdAt fields yields
the same dispatch outcome as the plain laptop body. -/
theorem c10_create_noninterference_witness :
    appHandle .POST ["products"] emptyStore laptopBody =
      appHandle .POST ["products"] emptyStore
        (laptopBody ++ [("id", .num 42), ("createdAt", .num 0)]) :=
  c10_create_noninterference emptyStore laptopBody
    (laptopBody ++ [("id", .num 42), ("createdAt", .num 0)])
    (by decide) (by decide)

/-- Claim C8: POST /message replies 200 with success and the thanks
template interpolating the body's name field; in particular the Alba
body gets the literal thanks-Alba reply, on every store, which is left
unchanged. -/
theorem c8_post_message_reply :
    (∀ s : Store,
      appHandle .POST ["message"] s [("name", .str "Alba"), ("message", .str "Hello!")] =
        some (⟨200, .jsonReply true "Thanks Alba, we received your message!"⟩, s)) ∧
    ∀ (s : Store) (body : ReqBody) (n : String),
      getField body "name" = .str n →
      appHandle .POST ["message"] s body =
        some (⟨200, .jsonReply true
          ("Thanks " ++ n ++ ", we received your message!")⟩, s) := by
  constructor
  · intro s
    simp [appHandle, dispatch, findRoute, appRoutes, Pattern.matches,
      Pattern.paramOf, postMessage, getField, jsToString]
  · intro s body n hn
    simp [appHandle, dispatch, findRoute, appRoutes, Pattern.matches,
      Pattern.paramOf, postMessage, hn, jsToString]

/-- Witness for C8: the interpolation clause applied to a concrete body
whose name field is "Bob". -/
theorem c8_post_message_reply_witness :
    appHandle .POST ["message"] sampleStore [("name", .str "Bob")] =
      some (⟨200, .jsonReply true "Thanks Bob, we received your message!"⟩,
        sampleStore) :=
  c8_post_message_reply.2 sampleStore [("name", .str "Bob")] "Bob" (by decide)

/-- Claim C3: when a POST /products create succeeds (201 with a record)
on a store with a fresh next id, a GET /products/:id whose segment
parses to that record's id returns 200 with the very record, and the
record's name and price are the ones read from the request body. -/
theorem c3_create_get_roundtrip :
    ∀ (s : Store) (body : ReqBody) (q : Product) (s' : Store),
      s.Fresh →
      appHandle .POST ["products"] s body = some (⟨201, .jsonProduct q⟩, s') →
      ∀ idStr, jsNumber idStr = .int q.id →
        appHandle .GET ["products", idStr] s' [] =
          some (⟨200, .jsonProduct q⟩, s') ∧
        getField body "name" = .str q.name ∧
        getField body "price" = .num q.price := by
  intro s body q s' hfresh hpost idStr hid
  have hpost1 : DirectRouter.create s body = (⟨201, .jsonProduct q⟩, s') := by
    have h0 : appHandle .POST ["products"] s body =
        some (DirectRouter.create s body) := by
      simp [appHandle, dispatch, findRoute, productsRouter, Pattern.matches,
        Pattern.paramOf]
    rw [h0] at hpost
    exact Option.some.inj hpost
  unfold DirectRouter.create at hpost1
  cases hc : Store.create s (getField body "name") (getField body "price") with
  | error e => rw [hc] at hpost1; simp at hpost1
  | ok pr =>
    rw [hc] at hpost1
    obtain ⟨p0, s1⟩ := pr
    simp at hpost1
    obtain ⟨hq, hs1⟩ := hpost1
    unfold Store.create at hc
    rcases hf : s.failing with _ | _
    case true => simp [hf] at hc
    case false =>
    simp [hf] at hc
    rcases hn : getField body "name" with _ | _ | b0 | n0 | nm <;> rw [hn] at hc <;>
      [simp at hc; simp at hc; simp at hc; simp at hc; skip]
    rcases hp : getField body "price" with _ | _ | b1 | n1 | m1 <;> rw [hp] at hc <;>
      [simp at hc; simp at hc; simp at hc; skip; simp at hc]
    simp at hc
    obtain ⟨hq0, hs0⟩ := hc
    obtain rfl : q = ⟨s.nextId, nm, n1, s.now⟩ := (hq0.trans hq).symm
    obtain rfl :
        s' = ⟨s.records ++ [⟨s.nextId, nm, n1, s.now⟩], s.nextId + 1, s.now, false⟩ :=
      (hs0.trans hs1).symm
    refine ⟨?_, rfl, rfl⟩
    have hsp : idStr ≠ "special" := by
      intro contra
      rw [contra] at hid
      have hnan : jsNumber "special" = .nan := by decide
      rw [hnan] at hid
      cases hid
    have h1 : s.records.find? (fun p => (jsNumber idStr).eqInt p.id) = none := by
      simp [hid, JSNum.eqInt, List.find?_eq_none]
      intro p hp h
      exact hfresh p hp h.symm
    have hfind : (s.records ++ [(⟨s.nextId, nm, n1, s.now⟩ : Product)]).find?
        (fun p => (jsNumber idStr).eqInt p.id) = some ⟨s.nextId, nm, n1, s.now⟩ := by
      rw [List.find?_append, h1]
      simp [hid, JSNum.eqInt]
    simp [appHandle, dispatch, findRoute, productsRouter, Pattern.matches,
      Pattern.paramOf, hsp, DirectRouter.getById, Store.findUnique, hfind]

/-- Witness for C3: creating the laptop record in the empty store and
fetching id "1" returns it with the body's name and price. -/
theorem c3_create_get_roundtrip_witness :
    appHandle .GET ["products", "1"] oneLaptopStore [] =
      some (⟨200, .jsonProduct laptopRecord⟩, oneLaptopStore) ∧
    getField laptopBody "name" = .str laptopRecord.name ∧
    getField laptopBody "price" = .num laptopRecord.price :=
  c3_create_get_roundtrip emptyStore laptopBody laptopRecord oneLaptopStore
    (by decide) (by decide) "1" (by decide)

/-- Claim C7: every request the application handles preserves every
existing record unchanged; the store is either left as it was or — only
for POST /products — extended by exactly one new record. -/
theorem c7_frame_immutability :
    ∀ (m : Method) (path : List String) (s : Store) (b : ReqBody)
      (resp : Response) (s' : Store),
      appHandle m path s b = some (resp, s') →
      (∀ q ∈ s.records, q ∈ s'.records) ∧
      (s'.records = s.records ∨ ∃ q, s'.records = s.records ++ [q]) ∧
      (¬(m = .POST ∧ path = ["products"]) → s' = s) := by
  intro m path s b resp s' h
  rcases appHandle_state h with rfl | ⟨hm, hp, q, hq⟩
  · exact ⟨fun q hq => hq, Or.inl rfl, fun _ => rfl⟩
  · refine ⟨?_, Or.inr ⟨q, hq⟩, ?_⟩
    · intro x hx
      rw [hq]
      exact List.mem_append_left _ hx
    · intro hn
      exact absurd ⟨hm, hp⟩ hn

/-- Witness for C7: the GET /about request on the sample store keeps
every record and leaves the store unchanged. -/
theorem c7_frame_immutability_witness :
    (∀ q ∈ sampleStore.records, q ∈ sampleStore.records) ∧
    (sampleStore.records = sampleStore.records ∨
      ∃ q, sampleStore.records = sampleStore.records ++ [q]) ∧
    (¬(Method.GET = .POST ∧ ["about"] = ["products"]) →
      sampleStore = sampleStore) :=
  c7_frame_immutability .GET ["about"] sampleStore []
    ⟨200, .text "This is the about page"⟩ sampleStore (by decide)
